import Mathlib

/-!
Verification development for the customs product module (`src/product.py`).

The module attaches customs tariff codes to product templates and product
categories.  An owner (Template or Category) either carries its own ordered
list of tariff-code links or delegates resolution to its customs category
(Template) or parent category (Category).  This file gives a shallow
embedding of the data model and of the operations `get_tariff_codes`,
`get_tariff_code`, `on_change_with_customs`, the validation constraints
declared in `Category.__setup__`, and the `delete` class methods, and proves
the specified properties about them.

Modelling conventions:
* `TariffCode` is the external `customs.tariff.code` entity: opaque except
  for an identity and its `match(pattern)` capability, embedded as a
  boolean-valued function `matchp`.
* Python generators are embedded as finite lists (the sequences are finite,
  bounded by the link lists on the delegation chain).
* A delegation step through a missing reference raises `AttributeError` in
  Python (`None.get_tariff_codes`); the embedding makes the resolvers
  `Option`-valued, with `none` standing for that failure, so that failure is
  distinguished from an empty result sequence `some []`.
* The ORM reads a `One2Many` field ordered by the declared order
  `[('sequence', 'ASC'), ('id', 'ASC')]`; the embedding stores the rows as a
  list and applies that order explicitly (`orderedLinks`) at read time.
-/

/-- Match patterns are opaque to this module; they are only ever passed to
`TariffCode.matches`.  We fix a concrete type so that scenarios from the
spec can be stated with string patterns. -/
abbrev Pattern := String

/-- The external `customs.tariff.code` entity: an identity plus its
`match(pattern) -> bool` capability (called `matchp` here because `match`
is reserved in Lean). -/
structure TariffCode where
  id : Nat
  matchp : Pattern → Bool

/-- One row of `product-customs.tariff.code` as seen from its owner's
`tariff_codes` One2Many list: the owner reference is implicit (the row sits
in its owner's list), leaving the row identity `id`, the ordering key
`sequence` (from `sequence_ordered()`), and the `tariff_code` reference. -/
structure TariffCodeLink where
  id : Nat
  sequence : Nat
  tariff_code : TariffCode

/-- The declared One2Many order `[('sequence', 'ASC'), ('id', 'ASC')]`:
ascending sequence, ties broken by ascending row id (creation order). -/
def linkLE (a b : TariffCodeLink) : Prop :=
  a.sequence < b.sequence ∨ (a.sequence = b.sequence ∧ a.id ≤ b.id)

instance : DecidableRel linkLE := by
  intro a b
  unfold linkLE
  exact inferInstance

instance : IsTotal TariffCodeLink linkLE := by
  refine ⟨fun a b => ?_⟩
  unfold linkLE
  omega

instance : IsTrans TariffCodeLink linkLE := by
  refine ⟨fun a b c hab hbc => ?_⟩
  unfold linkLE at hab hbc ⊢
  omega

/-- The ORM view of a `tariff_codes` One2Many field: the stored rows in the
declared order `[('sequence', 'ASC'), ('id', 'ASC')]`. -/
def orderedLinks (links : List TariffCodeLink) : List TariffCodeLink :=
  List.insertionSort linkLE links

/-- Embedding of the non-delegating loop shared by
`Category.get_tariff_codes` and `Template.get_tariff_codes`:
`for link in self.tariff_codes: if link.tariff_code.match(pattern): yield
link.tariff_code`, with the One2Many order applied at read time. -/
def matchingCodes (links : List TariffCodeLink) (pattern : Pattern) :
    List TariffCode :=
  (orderedLinks links).filterMap
    (fun link =>
      if link.tariff_code.matchp pattern then some link.tariff_code
      else none)

/-- `product.category` with the fields this module declares or uses:
`customs`, `tariff_codes_parent`, the `tariff_codes` One2Many (stored rows,
unordered; ordering is applied at read time), and the pre-existing `parent`
reference.  `parent` is `Option` because a root category has none;
categories form a finite tree, so the embedded type is inductive. -/
inductive Category : Type where
  | mk (customs : Bool) (tariff_codes_parent : Bool)
      (tariff_codes : List TariffCodeLink) (parent : Option Category)

/-- Field accessor for `Category.customs`. -/
def Category.customs : Category → Bool
  | .mk b _ _ _ => b

/-- Field accessor for `Category.tariff_codes_parent`. -/
def Category.tariff_codes_parent : Category → Bool
  | .mk _ b _ _ => b

/-- Field accessor for the stored rows of `Category.tariff_codes`. -/
def Category.tariff_codes : Category → List TariffCodeLink
  | .mk _ _ links _ => links

/-- Field accessor for `Category.parent`. -/
def Category.parent : Category → Option Category
  | .mk _ _ _ p => p

/-- Embedding of `Category.get_tariff_codes` (src/product.py lines 53-59):
if `tariff_codes_parent` is unset, yield the matching codes of the
category's own ordered link list; otherwise delegate to the parent.  The
`none` result models the `AttributeError` raised when the delegation target
`self.parent` is missing. -/
def Category.get_tariff_codes : Category → Pattern → Option (List TariffCode)
  | .mk _ tcp links par, pattern =>
    if !tcp then
      some (matchingCodes links pattern)
    else
      match par with
      | some p => Category.get_tariff_codes p pattern
      | none => none

/-- Embedding of `Category.get_tariff_code` (src/product.py lines 61-65):
`next` of the generator, with `StopIteration` turned into `None`.  The
outer `Option` propagates resolver failure; the inner `Option` is the
Python return value (`None` on an empty sequence). -/
def Category.get_tariff_code (c : Category) (pattern : Pattern) :
    Option (Option TariffCode) :=
  (c.get_tariff_codes pattern).map List.head?

/-- Embedding of `Category.on_change_with_customs` (src/product.py lines
47-51): with a parent, the `customs` flag recomputes to the parent's value;
otherwise it keeps its own value. -/
def Category.on_change_with_customs (c : Category) : Bool :=
  match c.parent with
  | some p => p.customs
  | none => c.customs

/-- `product.template` with the fields this module declares:
`customs_category`, `tariff_codes_category`, the `tariff_codes` One2Many
(stored rows), and `country_of_origin` (opaque country id). -/
structure Template where
  customs_category : Option Category
  tariff_codes_category : Bool
  tariff_codes : List TariffCodeLink
  country_of_origin : Option Nat

/-- Embedding of `Template.get_tariff_codes` (src/product.py lines
138-144): if `tariff_codes_category` is unset, yield the matching codes of
the template's own ordered link list; otherwise delegate to
`customs_category`.  The `none` result models the `AttributeError` raised
when `customs_category` is missing. -/
def Template.get_tariff_codes (t : Template) (pattern : Pattern) :
    Option (List TariffCode) :=
  if !t.tariff_codes_category then
    some (matchingCodes t.tariff_codes pattern)
  else
    match t.customs_category with
    | some c => c.get_tariff_codes pattern
    | none => none

/-- Embedding of `Template.get_tariff_code` (src/product.py lines
146-150), analogous to `Category.get_tariff_code`. -/
def Template.get_tariff_code (t : Template) (pattern : Pattern) :
    Option (Option TariffCode) :=
  (t.get_tariff_codes pattern).map List.head?

/-- `product.product`: only its `template` reference matters to this
module. -/
structure Product where
  template : Template

/-- Embedding of `Product.get_tariff_codes` (src/product.py lines
196-197): `yield from self.template.get_tariff_codes(pattern)`. -/
def Product.get_tariff_codes (p : Product) (pattern : Pattern) :
    Option (List TariffCode) :=
  p.template.get_tariff_codes pattern

/-- Embedding of `Product.get_tariff_code` (src/product.py lines
199-200): `return self.template.get_tariff_code(pattern)`. -/
def Product.get_tariff_code (p : Product) (pattern : Pattern) :
    Option (Option TariffCode) :=
  p.template.get_tariff_code pattern

/-! Concrete fixtures used by scenario claims and by witnesses. -/

/-- A tariff code matching the patterns "84" and "84.1" (spec scenario:
CodeA, declared as matching "84"). -/
def code84 : TariffCode := ⟨1, fun s => s == "84" || s == "84.1"⟩

/-- A tariff code matching only the pattern "84.1" (spec scenario:
CodeB). -/
def code841 : TariffCode := ⟨2, fun s => s == "84.1"⟩

/-- A tariff code matching only the pattern "85" (spec scenario: CodeC). -/
def code85 : TariffCode := ⟨3, fun s => s == "85"⟩

/-- A root customs category owning one link to `code85` (spec scenario:
Goods). -/
def catGoods : Category := .mk true false [⟨1, 1, code85⟩] none

/-- A customs category with `tariff_codes_parent` set, delegating to
`catGoods` (spec scenario: Electronics). -/
def catElectronics : Category := .mk true true [] (some catGoods)

/-- A template with `tariff_codes_category` set, delegating to
`catElectronics`. -/
def tmplDelegating : Template := ⟨some catElectronics, true, [], none⟩

/-- The template of the spec scenario for sequence priority: no category
delegation, links with sequence 1 to `code84` and sequence 2 to
`code841`. -/
def tmplOwn : Template := ⟨none, false, [⟨1, 1, code84⟩, ⟨2, 2, code841⟩], none⟩

/-- A template with `tariff_codes_category` set but no `customs_category`:
the configuration the required-field constraint forbids. -/
def tmplBroken : Template := ⟨none, true, [], none⟩

/-- Erase every `customs` flag reachable from a category (its own and
those of its ancestors), leaving all other state unchanged.  Two
categories agree on everything except `customs` values exactly when their
scrubbed forms are equal. -/
def Category.scrubCustoms : Category → Category
  | .mk _ tcp links none => .mk false tcp links none
  | .mk _ tcp links (some p) =>
      .mk false tcp links (some (Category.scrubCustoms p))

/-- Erase every `customs` flag reachable from a template (those of its
customs category chain). -/
def Template.scrubCustoms (t : Template) : Template :=
  { t with customs_category := t.customs_category.map Category.scrubCustoms }

/-- A copy of the Goods fixture differing from it only in the `customs`
flag. -/
def catGoodsPlain : Category := .mk false false [⟨1, 1, code85⟩] none

/-! Database-level model for the `delete` class methods.  Link rows are
stored in a table with a polymorphic `product` Reference column; `delete`
on Category or Template stringifies the records into references, runs the
base deletion, and then removes the matching link rows batch by batch. -/

/-- A value of the `product` Reference column of
`product-customs.tariff.code`: the selection admits `product.template` and
`product.category` targets (the Python code compares the stringified
records `str(t)` = `'model,id'`; the tagged id models that string). -/
inductive OwnerRef : Type where
  | template (id : Nat)
  | category (id : Nat)
  deriving DecidableEq

/-- A full row of the `product-customs.tariff.code` table (class
`Product_TariffCode`, src/product.py lines 175-183): row id, the
polymorphic `product` owner reference, and the `tariff_code` foreign key
(by id; the code entity itself is external). -/
structure Product_TariffCode where
  id : Nat
  product : OwnerRef
  tariff_code : Nat
  deriving DecidableEq

/-- The slice of database state the `delete` methods touch: the ids of the
category and template records and the tariff-code link table. -/
structure DB where
  categories : List Nat
  templates : List Nat
  link_rows : List Product_TariffCode

/-- Embedding of `trytond.tools.grouped_slice`: cut a list into successive
chunks of at most `count` elements (a `count` of 0 degrades to chunks of
one element so that the function is total; Tryton's default `count` is the
positive `IN_MAX`). -/
def groupedSlice {α : Type} (count : Nat) : List α → List (List α)
  | [] => []
  | a :: l =>
      (a :: l.take (count - 1)) :: groupedSlice count (l.drop (count - 1))
  termination_by l => l.length
  decreasing_by
    simp only [List.length_drop, List.length_cons]
    omega

/-- Embedding of `Product_TariffCode.search` with the domain
`'product', 'in', refs` used by the delete methods: the rows whose
`product` reference is among `refs`.  (Tryton reads the flat triple as a
single domain leaf, identical to `[('product', 'in', refs)]`.) -/
def searchProductIn (rows : List Product_TariffCode) (refs : List OwnerRef) :
    List Product_TariffCode :=
  rows.filter (fun r => decide (r.product ∈ refs))

/-- Embedding of `Product_TariffCode.delete(found)`: remove the found rows
from the table. -/
def deleteRows (rows found : List Product_TariffCode) :
    List Product_TariffCode :=
  rows.filter (fun r => decide (r ∉ found))

/-- Embedding of `Category.delete` (src/product.py lines 75-87): stringify
the records into references, run the base deletion, then for each
`grouped_slice` batch of references search the matching link rows and
delete them.  `count` is the slice size used by `grouped_slice`. -/
def Category.delete (count : Nat) (db : DB) (categories : List Nat) : DB :=
  let products := categories.map OwnerRef.category
  let db1 : DB :=
    { db with
      categories := db.categories.filter (fun i => decide (i ∉ categories)) }
  let rows := (groupedSlice count products).foldl
    (fun rows batch => deleteRows rows (searchProductIn rows batch))
    db1.link_rows
  { db1 with link_rows := rows }

/-- Embedding of `Template.delete` (src/product.py lines 160-172), the
same collect-and-delete step with `product.template` references. -/
def Template.delete (count : Nat) (db : DB) (templates : List Nat) : DB :=
  let products := templates.map OwnerRef.template
  let db1 : DB :=
    { db with
      templates := db.templates.filter (fun i => decide (i ∉ templates)) }
  let rows := (groupedSlice count products).foldl
    (fun rows batch => deleteRows rows (searchProductIn rows batch))
    db1.link_rows
  { db1 with link_rows := rows }

/-! Edit model for the customs-flag invariant.  `Category.__setup__`
(src/product.py lines 29-37) constrains the `parent` field with the domain
`('customs', '=', Eval('customs', False))` — a stored parent must carry
the same `customs` value as the record — and makes `parent` required when
`tariff_codes_parent` is set.  The host framework validates these domains
whenever a record is created or written, so an edit only succeeds when the
resulting record satisfies them.  The `customs` field itself is declared
readonly in the client whenever the category has children or a parent
(src/product.py lines 12-16). -/

/-- The values an edit may set on a category; `none` leaves the stored
value unchanged. -/
structure CategoryVals where
  customs : Option Bool
  tariff_codes_parent : Option Bool
  tariff_codes : Option (List TariffCodeLink)
  parent : Option (Option Category)

/-- The validation constraints `Category.__setup__` declares on a stored
category: a parent, when present, carries the same `customs` value, and a
parent is required whenever `tariff_codes_parent` is set. -/
def Category.validRecord (c : Category) : Bool :=
  (match c.parent with
   | some p => p.customs == c.customs
   | none => true)
  && (!c.tariff_codes_parent || c.parent.isSome)

/-- The record that results from applying edit values to a category. -/
def Category.update (c : Category) (v : CategoryVals) : Category :=
  Category.mk (v.customs.getD c.customs)
    (v.tariff_codes_parent.getD c.tariff_codes_parent)
    (v.tariff_codes.getD c.tariff_codes) (v.parent.getD c.parent)

/-- An edit of a category: apply the given values, then accept the result
only if it satisfies the declared validation constraints (the host
framework raises a validation failure otherwise, leaving the record
unchanged). -/
def Category.write (c : Category) (v : CategoryVals) : Option Category :=
  if (c.update v).validRecord then some (c.update v) else none

/-- The readonly condition declared on the `customs` field
(src/product.py lines 12-16): `Bool(Eval('childs', [0])) |
Bool(Eval('parent'))`.  Whether the category has children is not derivable
from the record itself and is passed in. -/
def Category.customs_readonly (hasChilds : Bool) (c : Category) : Bool :=
  hasChilds || c.parent.isSome

/-- A customs category whose parent is `catGoods` and whose own `customs`
flag matches it. -/
def catChild : Category := .mk true false [] (some catGoods)

/-- An edit that changes nothing. -/
def noVals : CategoryVals := ⟨none, none, none, none⟩

/-- Auxiliary: a `filterMap` by a guarded `some` is a `filter` followed by
a `map`. -/
theorem filterMap_guard_eq_map_filter {α β : Type} (p : α → Bool) (f : α → β)
    (l : List α) :
    l.filterMap (fun a => if p a then some (f a) else none)
      = (l.filter p).map f := by
  induction l with
  | nil => rfl
  | cons a l ih =>
    by_cases h : p a <;>
      simp [List.filterMap_cons, List.filter_cons, h, ih]

/-- C1: for every Template whose `tariff_codes_category` flag is true and
every pattern, `get_tariff_codes` on the template produces the same
sequence as `get_tariff_codes` on its `customs_category`. -/
theorem C1_template_delegates_to_customs_category (t : Template)
    (c : Category) (pattern : Pattern)
    (hflag : t.tariff_codes_category = true)
    (hcat : t.customs_category = some c) :
    t.get_tariff_codes pattern = c.get_tariff_codes pattern := by
  simp [Template.get_tariff_codes, hflag, hcat]

/-- Witness for C1 at the Electronics fixture. -/
theorem C1_witness :
    tmplDelegating.get_tariff_codes "85"
      = catElectronics.get_tariff_codes "85" :=
  C1_template_delegates_to_customs_category tmplDelegating catElectronics
    "85" rfl rfl

/-- C2: for every Category whose `tariff_codes_parent` flag is true and
every pattern, `get_tariff_codes` on the category produces the same
sequence as `get_tariff_codes` on its parent. -/
theorem C2_category_delegates_to_parent (c p : Category) (pattern : Pattern)
    (hflag : c.tariff_codes_parent = true) (hpar : c.parent = some p) :
    c.get_tariff_codes pattern = p.get_tariff_codes pattern := by
  cases c with
  | mk cu tcp links par =>
    simp only [Category.tariff_codes_parent] at hflag
    simp only [Category.parent] at hpar
    subst hflag
    subst hpar
    simp [Category.get_tariff_codes]

/-- Witness for C2 at the Electronics/Goods fixture. -/
theorem C2_witness :
    catElectronics.get_tariff_codes "85" = catGoods.get_tariff_codes "85" :=
  C2_category_delegates_to_parent catElectronics catGoods "85" rfl rfl

/-- C3: a non-delegating owner yields exactly the tariff codes of its own
link list whose `match` holds, in ascending `(sequence, id)` order: the
result is the match-filtered, `(sequence, id)`-sorted view of the owner's
links (a permutation of the stored rows), and the contributing links are
sorted under `linkLE`. -/
theorem C3_own_codes_exact_and_ordered :
    (∀ (c : Category) (pattern : Pattern), c.tariff_codes_parent = false →
      c.get_tariff_codes pattern
          = some (((orderedLinks c.tariff_codes).filter
              (fun l => l.tariff_code.matchp pattern)).map
                TariffCodeLink.tariff_code)
        ∧ (orderedLinks c.tariff_codes).Perm c.tariff_codes
        ∧ List.Sorted linkLE ((orderedLinks c.tariff_codes).filter
            (fun l => l.tariff_code.matchp pattern)))
    ∧ (∀ (t : Template) (pattern : Pattern), t.tariff_codes_category = false →
      t.get_tariff_codes pattern
          = some (((orderedLinks t.tariff_codes).filter
              (fun l => l.tariff_code.matchp pattern)).map
                TariffCodeLink.tariff_code)
        ∧ (orderedLinks t.tariff_codes).Perm t.tariff_codes
        ∧ List.Sorted linkLE ((orderedLinks t.tariff_codes).filter
            (fun l => l.tariff_code.matchp pattern))) := by
  constructor
  · intro c pattern hflag
    refine ⟨?_, List.perm_insertionSort linkLE _,
      (List.sorted_insertionSort linkLE _).filter _⟩
    cases c with
    | mk cu tcp links par =>
      simp only [Category.tariff_codes_parent] at hflag
      subst hflag
      cases par <;>
        simp [Category.get_tariff_codes, Category.tariff_codes, matchingCodes,
          filterMap_guard_eq_map_filter]
  · intro t pattern hflag
    refine ⟨?_, List.perm_insertionSort linkLE _,
      (List.sorted_insertionSort linkLE _).filter _⟩
    simp [Template.get_tariff_codes, hflag, matchingCodes,
      filterMap_guard_eq_map_filter]

/-- Witness for C3 at the Goods fixture. -/
theorem C3_witness :
    catGoods.get_tariff_codes "85"
        = some (((orderedLinks catGoods.tariff_codes).filter
            (fun l => l.tariff_code.matchp "85")).map
              TariffCodeLink.tariff_code)
      ∧ (orderedLinks catGoods.tariff_codes).Perm catGoods.tariff_codes
      ∧ List.Sorted linkLE ((orderedLinks catGoods.tariff_codes).filter
          (fun l => l.tariff_code.matchp "85")) :=
  C3_own_codes_exact_and_ordered.1 catGoods "85" rfl

/-- C4: whenever `get_tariff_codes` succeeds with a sequence `l`,
`get_tariff_code` returns `l.head?`: the first element when `l` is
non-empty, and `none` (an empty optional, not an error) when `l` is
empty. -/
theorem C4_get_tariff_code_is_head :
    (∀ (c : Category) (pattern : Pattern) (l : List TariffCode),
      c.get_tariff_codes pattern = some l →
        c.get_tariff_code pattern = some l.head?
        ∧ (l = [] → c.get_tariff_code pattern = some none))
    ∧ (∀ (t : Template) (pattern : Pattern) (l : List TariffCode),
      t.get_tariff_codes pattern = some l →
        t.get_tariff_code pattern = some l.head?
        ∧ (l = [] → t.get_tariff_code pattern = some none)) := by
  constructor
  · intro c pattern l h
    refine ⟨by simp [Category.get_tariff_code, h], ?_⟩
    rintro rfl
    simp [Category.get_tariff_code, h]
  · intro t pattern l h
    refine ⟨by simp [Template.get_tariff_code, h], ?_⟩
    rintro rfl
    simp [Template.get_tariff_code, h]

/-- Witness for C4 at the Goods fixture. -/
theorem C4_witness :
    catGoods.get_tariff_code "85" = some [code85].head?
      ∧ ([code85] = [] → catGoods.get_tariff_code "85" = some none) :=
  C4_get_tariff_code_is_head.1 catGoods "85" [code85] rfl

/-- C7: in the sequence-priority scenario, the template resolves the
pattern "84.1" to the full sequence `[code84, code841]` and
`get_tariff_code` returns `code84`, the code of the sequence-1 link, even
though `code841` matches the pattern more specifically. -/
theorem C7_sequence_priority_scenario :
    tmplOwn.get_tariff_codes "84.1" = some [code84, code841]
      ∧ tmplOwn.get_tariff_code "84.1" = some (some code84) :=
  ⟨rfl, rfl⟩

/-- C8: a Product delegates all tariff-code resolution to its Template:
both `get_tariff_codes` and `get_tariff_code` on a product coincide with
the same operations on `product.template`. -/
theorem C8_product_delegates_to_template (p : Product) (pattern : Pattern) :
    p.get_tariff_codes pattern = p.template.get_tariff_codes pattern
      ∧ p.get_tariff_code pattern = p.template.get_tariff_code pattern :=
  ⟨rfl, rfl⟩

/-- C9: resolution on a delegating owner needs the delegation target: with
the delegation flag set and the target present, the delegation branch
resolves through the target (no missing reference is dereferenced); with
the target absent, the resolver fails (`none`, the embedded
`AttributeError`) instead of returning the empty sequence `some []`. -/
theorem C9_delegation_requires_target :
    (∀ (t : Template) (pattern : Pattern), t.tariff_codes_category = true →
      (t.customs_category = none →
        t.get_tariff_codes pattern = none
          ∧ t.get_tariff_codes pattern ≠ some [])
      ∧ (∀ c, t.customs_category = some c →
          t.get_tariff_codes pattern = c.get_tariff_codes pattern))
    ∧ (∀ (c : Category) (pattern : Pattern), c.tariff_codes_parent = true →
      (c.parent = none →
        c.get_tariff_codes pattern = none
          ∧ c.get_tariff_codes pattern ≠ some [])
      ∧ (∀ p, c.parent = some p →
          c.get_tariff_codes pattern = p.get_tariff_codes pattern)) := by
  constructor
  · intro t pattern hflag
    constructor
    · intro hnone
      simp [Template.get_tariff_codes, hflag, hnone]
    · intro c hsome
      simp [Template.get_tariff_codes, hflag, hsome]
  · intro c pattern hflag
    cases c with
    | mk cu tcp links par =>
      simp only [Category.tariff_codes_parent] at hflag
      subst hflag
      constructor
      · intro hnone
        simp only [Category.parent] at hnone
        subst hnone
        simp [Category.get_tariff_codes]
      · intro p hsome
        simp only [Category.parent] at hsome
        subst hsome
        simp [Category.get_tariff_codes]

/-- Witness for C9 at the broken template fixture (delegation flag set,
no customs category). -/
theorem C9_witness :
    tmplBroken.get_tariff_codes "85" = none
      ∧ tmplBroken.get_tariff_codes "85" ≠ some [] :=
  ((C9_delegation_requires_target.1 tmplBroken "85" rfl).1) rfl

/-- Resolution does not read the `customs` flag: scrubbing all customs
flags leaves `Category.get_tariff_codes` unchanged. -/
theorem scrub_get_tariff_codes_eq :
    ∀ (c : Category) (pattern : Pattern),
      (Category.scrubCustoms c).get_tariff_codes pattern
        = c.get_tariff_codes pattern
  | .mk cu tcp links none, pattern => by
      simp [Category.scrubCustoms, Category.get_tariff_codes]
  | .mk cu tcp links (some p), pattern => by
      simp [Category.scrubCustoms, Category.get_tariff_codes,
        scrub_get_tariff_codes_eq p pattern]

/-- Resolution does not read the `customs` flag: scrubbing all customs
flags leaves `Template.get_tariff_codes` unchanged. -/
theorem scrub_template_get_tariff_codes_eq (t : Template)
    (pattern : Pattern) :
    (Template.scrubCustoms t).get_tariff_codes pattern
      = t.get_tariff_codes pattern := by
  cases t with
  | mk cc tcc links coo =>
    cases cc with
    | none => simp [Template.scrubCustoms, Template.get_tariff_codes]
    | some c =>
      simp [Template.scrubCustoms, Template.get_tariff_codes,
        scrub_get_tariff_codes_eq c pattern]

/-- C10: tariff-code resolution is independent of the `customs` flag: two
owners whose states agree except for customs-flag values (their scrubbed
forms are equal) resolve identically under `get_tariff_codes` and
`get_tariff_code` for every pattern. -/
theorem C10_resolution_ignores_customs_flag :
    (∀ (c c' : Category), Category.scrubCustoms c = Category.scrubCustoms c' →
      ∀ pattern : Pattern,
        c.get_tariff_codes pattern = c'.get_tariff_codes pattern
          ∧ c.get_tariff_code pattern = c'.get_tariff_code pattern)
    ∧ (∀ (t t' : Template), Template.scrubCustoms t = Template.scrubCustoms t' →
      ∀ pattern : Pattern,
        t.get_tariff_codes pattern = t'.get_tariff_codes pattern
          ∧ t.get_tariff_code pattern = t'.get_tariff_code pattern) := by
  constructor
  · intro c c' h pattern
    have hcodes : c.get_tariff_codes pattern = c'.get_tariff_codes pattern := by
      rw [← scrub_get_tariff_codes_eq c pattern, h,
        scrub_get_tariff_codes_eq c' pattern]
    exact ⟨hcodes, by simp [Category.get_tariff_code, hcodes]⟩
  · intro t t' h pattern
    have hcodes : t.get_tariff_codes pattern = t'.get_tariff_codes pattern := by
      rw [← scrub_template_get_tariff_codes_eq t pattern, h,
        scrub_template_get_tariff_codes_eq t' pattern]
    exact ⟨hcodes, by simp [Template.get_tariff_code, hcodes]⟩

/-- Witness for C10: the Goods fixture and its customs-flipped copy
resolve identically. -/
theorem C10_witness :
    catGoods.get_tariff_codes "85" = catGoodsPlain.get_tariff_codes "85"
      ∧ catGoods.get_tariff_code "85" = catGoodsPlain.get_tariff_code "85" :=
  C10_resolution_ignores_customs_flag.1 catGoods catGoodsPlain rfl "85"

/-- Auxiliary: searching then deleting one batch removes exactly the rows
whose owner reference lies in the batch. -/
theorem deleteRows_searchProductIn (rows : List Product_TariffCode)
    (batch : List OwnerRef) :
    deleteRows rows (searchProductIn rows batch)
      = rows.filter (fun r => decide (r.product ∉ batch)) := by
  unfold deleteRows
  refine List.filter_congr ?_
  intro r hr
  simp [searchProductIn, List.mem_filter, hr, decide_eq_decide]

/-- Auxiliary: the batch loop of the delete methods removes exactly the
rows whose owner reference lies in some batch. -/
theorem foldl_batch_delete (chunks : List (List OwnerRef))
    (rows : List Product_TariffCode) :
    chunks.foldl
        (fun rows batch => deleteRows rows (searchProductIn rows batch)) rows
      = rows.filter (fun r => decide (r.product ∉ chunks.flatten)) := by
  induction chunks generalizing rows with
  | nil => simp
  | cons batch chunks ih =>
    rw [List.foldl_cons, deleteRows_searchProductIn, ih, List.filter_filter]
    refine List.filter_congr ?_
    intro r hr
    simp only [List.flatten_cons, List.mem_append, not_or, Bool.decide_and]
    exact Bool.and_comm _ _

/-- Auxiliary: `grouped_slice` partitions its input: flattening the
chunks gives back the original list. -/
theorem flatten_groupedSlice {α : Type} (count : Nat) :
    ∀ l : List α, (groupedSlice count l).flatten = l
  | [] => by simp [groupedSlice]
  | a :: l => by
      rw [groupedSlice]
      simp only [List.flatten_cons,
        flatten_groupedSlice count (l.drop (count - 1))]
      simp [List.take_append_drop]
  termination_by l => l.length
  decreasing_by
    simp only [List.length_drop, List.length_cons]
    omega

/-- C5: deleting categories or templates removes exactly the link rows
whose `product` reference equals one of the deleted records and no other
link rows, with the link removal batched by `grouped_slice` inside the
same delete call that performs the base deletion of the owners. -/
theorem C5_delete_removes_exactly_owned_links (count : Nat) (db : DB)
    (ids : List Nat) :
    (Category.delete count db ids).link_rows
        = db.link_rows.filter
            (fun r => decide (r.product ∉ ids.map OwnerRef.category))
      ∧ (Category.delete count db ids).categories
          = db.categories.filter (fun i => decide (i ∉ ids))
      ∧ (Category.delete count db ids).templates = db.templates
      ∧ (Template.delete count db ids).link_rows
          = db.link_rows.filter
              (fun r => decide (r.product ∉ ids.map OwnerRef.template))
      ∧ (Template.delete count db ids).templates
          = db.templates.filter (fun i => decide (i ∉ ids))
      ∧ (Template.delete count db ids).categories = db.categories := by
  refine ⟨?_, rfl, rfl, ?_, rfl, rfl⟩
  · show (groupedSlice count (ids.map OwnerRef.category)).foldl _ _ = _
    rw [foldl_batch_delete, flatten_groupedSlice]
  · show (groupedSlice count (ids.map OwnerRef.template)).foldl _ _ = _
    rw [foldl_batch_delete, flatten_groupedSlice]

/-- C6: after any successful edit, a category with a parent carries its
parent's `customs` value; the displayed flag recomputes to the parent's
value (`on_change_with_customs`), and the `customs` field is readonly on
such a category, so the flag is propagated rather than independently
editable. -/
theorem C6_customs_equals_parent_after_edit (c : Category)
    (v : CategoryVals) (c' p : Category) (b : Bool)
    (hw : c.write v = some c') (hp : c'.parent = some p) :
    c'.customs = p.customs
      ∧ c'.on_change_with_customs = p.customs
      ∧ Category.customs_readonly b c' = true := by
  unfold Category.write at hw
  split at hw
  · rename_i hv
    have hc' := Option.some.inj hw
    subst hc'
    cases c with
    | mk cu tcp links par =>
      simp only [Category.update, Category.customs,
        Category.tariff_codes_parent, Category.tariff_codes,
        Category.parent] at hv hp ⊢
      unfold Category.validRecord at hv
      simp only [Category.update, Category.customs,
        Category.tariff_codes_parent, Category.parent, hp,
        Bool.and_eq_true, beq_iff_eq] at hv
      cases p with
      | mk pcu ptcp plinks ppar =>
        refine ⟨?_, ?_, ?_⟩
        · simpa [Category.customs] using hv.1.symm
        · simp [Category.update, Category.on_change_with_customs,
            Category.parent, Category.customs, hp]
        · simp [Category.update, Category.customs_readonly,
            Category.parent, hp]
  · simp at hw

/-- Witness for C6: a successful no-change edit of `catChild` leaves its
`customs` flag equal to its parent's. -/
theorem C6_witness :
    catChild.customs = catGoods.customs
      ∧ catChild.on_change_with_customs = catGoods.customs
      ∧ Category.customs_readonly false catChild = true :=
  C6_customs_equals_parent_after_edit catChild noVals catChild catGoods false
    rfl rfl
